import Mathlib

/-!
Verification development for the gemini-fs conversational file-system
orchestrator.  The definitions below are shallow embeddings of the
TypeScript sources: `src/fileService.ts` (the `FileService` class, final
revision in the file), `src/fileSystemUtils.ts` (`resolvePathUtil`),
`src/fileOperationCommands.ts` (`FileOperationCommands`), and the webview
dispatch in `src/extension.ts`.  Strings model JavaScript strings, lists
model arrays, and the asynchronous collaborators (the VS Code file system
and the Gemini service) are passed in as explicit function parameters whose
`Except` results model resolved / rejected promises.
-/

namespace GeminiFS

/-- The ASCII apostrophe character (code point 39), used when assembling the
user-facing message strings that in the TypeScript source contain single
quotes. -/
def sq : String := ⟨[Char.ofNat 39]⟩

/-- Whitespace test matching the characters JavaScript regards as `\s`
that can occur in chat input (space, tab, newline, carriage return). -/
def isWs (c : Char) : Bool := c = ' ' || c = '\t' || c = '\n' || c = '\r'

/-- JavaScript `String.prototype.trim()` on the character list of a string. -/
def jsTrim (s : String) : String :=
  ⟨((s.data.dropWhile isWs).reverse.dropWhile isWs).reverse⟩

/-- JavaScript `a.startsWith(b)`: decide whether `pre` is a leading run of `s`. -/
def chLeads : List Char → List Char → Bool
  | [], _ => true
  | _ :: _, [] => false
  | p :: ps, c :: cs => p = c && chLeads ps cs

/-- JavaScript `s.startsWith(pre)` for strings. -/
def strStarts (s pre : String) : Bool := chLeads pre.data s.data

/-- JavaScript `s.substring(0, n)` (used for the content truncations). -/
def strTake (n : Nat) (s : String) : String := ⟨s.data.take n⟩

/-- JavaScript `s.substring(n)`. -/
def strDrop (n : Nat) (s : String) : String := ⟨s.data.drop n⟩

/-- JavaScript `s.replace(/\\/g, '/')`: replace every backslash by a slash. -/
def replaceBackslashes (s : String) : String :=
  ⟨s.data.map (fun c => if c = '\\' then '/' else c)⟩

/-- Split a character list at every occurrence of `sep` (Node's
`path.split('/')` behaviour: empty segments are kept). -/
def splitOnChar (sep : Char) : List Char → List (List Char)
  | [] => [[]]
  | c :: rest =>
    match splitOnChar sep rest with
    | h :: t => if c = sep then [] :: h :: t else (c :: h) :: t
    | [] => if c = sep then [[], []] else [[c]]

/-- Segment resolution of Node's `path.posix.normalize`: drop empty and `.`
segments and resolve `..` against the preceding segment; a `..` that cannot
be resolved is kept only for relative paths (`allowAboveRoot`). -/
def normSegs (allowAboveRoot : Bool) (segs : List (List Char)) : List (List Char) :=
  (segs.foldl (fun acc seg =>
    if seg = [] || seg = ['.'] then acc
    else if seg = ['.', '.'] then
      match acc with
      | [] => if allowAboveRoot then [['.', '.']] else []
      | top :: rest =>
        if top = ['.', '.'] then (if allowAboveRoot then seg :: acc else acc)
        else rest
    else seg :: acc) []).reverse

/-- Node `path.posix.normalize` on a character list. -/
def posixNormalizeChars (cs : List Char) : List Char :=
  if cs = [] then ['.']
  else
    let isAbs := cs.head? = some '/'
    let trailing := cs.getLast? = some '/'
    let core := List.intercalate ['/'] (normSegs (!isAbs) (splitOnChar '/' cs))
    if core = [] then
      if isAbs then ['/'] else if trailing then ['.', '/'] else ['.']
    else
      let core' := if trailing then core ++ ['/'] else core
      if isAbs then '/' :: core' else core'

/-- Node `path.normalize` for POSIX separators (the platform the sandbox
scenarios in the spec use). -/
def pathNormalize (s : String) : String := ⟨posixNormalizeChars s.data⟩

/-- The path component of `vscode.Uri.joinPath(rootUri, p)` for a `file:`
URI on POSIX, which is also its `fsPath`: the POSIX join of the two
fragments (empty fragments are skipped, `.` and `..` segments are
normalized away, `..` cannot climb above the filesystem root). -/
def uriJoinPath (rootFsPath p : String) : String :=
  if p = "" then ⟨posixNormalizeChars rootFsPath.data⟩
  else ⟨posixNormalizeChars (rootFsPath.data ++ '/' :: p.data)⟩

/-- The replacement `normalized.replace(/^(\.\.(\/|\|$))+/, '')` performed by
`FileService.secureResolvePath` (fileService.ts).  Each repetition of the
regex group consumes `..` followed either by a slash or by a literal pipe
character at the end of the string; a bare trailing `..` is not consumed. -/
def stripClimbChars : List Char → List Char
  | '.' :: '.' :: '/' :: rest => stripClimbChars rest
  | ['.', '.', '|'] => []
  | cs => cs

/-- String form of `stripClimbChars`. -/
def stripClimb (s : String) : String := ⟨stripClimbChars s.data⟩

/-- `FileService.secureResolvePath` (fileService.ts, lines 451-479): resolve a
user-supplied relative path against the workspace root.  `Except.error`
carries the text the method posts to the webview before returning `null`;
`Except.ok` carries the `fsPath` of the returned URI.  The `none` root case
models an absent `vscode.workspace.workspaceFolders`. -/
def secureResolvePath (root : Option String) (relativePath : String) :
    Except String String :=
  match root with
  | none => .error "No workspace folder is open. Cannot resolve path."
  | some rootFsPath =>
    let normalizedPath := stripClimb (pathNormalize relativePath)
    if normalizedPath = "" || normalizedPath = "." || normalizedPath = ".." then
      .error ("Invalid or ambiguous path specified: " ++ relativePath)
    else
      let targetUri := uriJoinPath rootFsPath normalizedPath
      if strStarts targetUri rootFsPath then .ok targetUri
      else
        .error ("Access denied: Path " ++ sq ++ relativePath ++ sq ++
          " is outside the workspace.")

/-- `resolvePathUtil` (fileSystemUtils.ts, lines 218-252): the sibling path
resolver used by `FileOperationCommands`.  `Except.error` carries the text
handed to the `showSystemMessageCallback`; `Except.ok` carries the pair of
the target `fsPath` and the display-relative path (empty display collapses
to `"."`, mirroring `displayRelativePath || '.'`). -/
def resolvePathUtil (root : Option String) (rawPath : String) :
    Except String (String × String) :=
  match root with
  | none => .error "No workspace folder is open."
  | some rootUri =>
    let normalizedPath :=
      ⟨(replaceBackslashes (jsTrim rawPath)).data.dropWhile
        (fun c => c = '/' || c = '\\')⟩
    let targetUri := uriJoinPath rootUri normalizedPath
    let rootFsPath := replaceBackslashes rootUri
    let targetFsPath := replaceBackslashes targetUri
    if !strStarts targetFsPath rootFsPath && targetFsPath ≠ rootFsPath then
      .error ("Path is outside the workspace: " ++ normalizedPath)
    else
      let display :=
        if strStarts targetFsPath rootFsPath then
          replaceBackslashes ⟨targetFsPath.data.drop rootFsPath.data.length⟩
        else replaceBackslashes targetFsPath
      .ok (targetUri, if display = "" then "." else display)

/-- One entry of the conversation history (`Content` from
`@google/generative-ai`): every entry in this code base has a single text
part, so the embedding keeps the role string and that text. -/
structure Turn where
  role : String
  text : String
deriving DecidableEq, Repr

/-- A message posted to the webview by `FileService` (fileService.ts): the
`command` discriminants actually used by the handlers under verification. -/
inductive Msg where
  | error (text : String)
  | response (text : String)
  | showFilePreview (action filePath proposedContent message : String)
      (originalContent : Option String)
  | confirmDelete (filePath message : String)
deriving DecidableEq, Repr

/-- JavaScript `args.match(/^(\S+)\s*(.*)$/s)`: a non-empty leading run of
non-whitespace characters, then the remainder after the following
whitespace run.  `none` models a failed match (empty input or input whose
first character is whitespace, since the pattern is anchored).  The same
shape without the `s` flag is used in fileOperationCommands.ts; the two
agree on the single-line argument strings considered here. -/
def matchPathRest (s : String) : Option (String × String) :=
  match s.data with
  | [] => none
  | c :: _ =>
    if isWs c then none
    else
      some (⟨s.data.takeWhile (fun c => !isWs c)⟩,
        ⟨(s.data.dropWhile (fun c => !isWs c)).dropWhile isWs⟩)

namespace FileService

/-- Result of `FileService.handleReadCommand`: the webview messages posted,
the conversation history after the call, and the `fsPath`s on which the
file-system `readFile` was invoked. -/
structure ReadOutcome where
  msgs : List Msg
  hist : List Turn
  reads : List String
deriving DecidableEq, Repr

/-- `FileService.handleReadCommand` (fileService.ts, lines 560-581).  `args`
is `messageText.substring(5)`; `readFile` models `this.readFile` (resolved
promise with the content, or rejected promise whose error message is the
`Error.message` string). -/
def handleReadCommand (root : Option String) (args : String) (hist : List Turn)
    (readFile : String → Except String String) : ReadOutcome :=
  let filePath := jsTrim args
  if filePath = "" then
    { msgs := [.error
        "Please specify a file path after /read (e.g., /read src/extension.ts)."],
      hist := hist ++ [⟨"model", "Error: User did not specify a file path for /read."⟩],
      reads := [] }
  else
    match secureResolvePath root filePath with
    | .error e => { msgs := [.error e], hist := hist, reads := [] }
    | .ok fileUri =>
      match readFile fileUri with
      | .ok fileContent =>
        let responseText :=
          "Content of " ++ filePath ++ ":\n```\n" ++ strTake 1000 fileContent ++
          "\n```" ++
          (if 1000 < fileContent.data.length then "\n... (file truncated)" else "")
        { msgs := [.response responseText],
          hist := hist ++ [⟨"model",
            "Successfully read and displayed content of " ++ filePath ++
            ". The content started with: " ++ strTake 200 fileContent ++ "..."⟩],
          reads := [fileUri] }
      | .error readErr =>
        let errorMsg := "Failed to read file " ++ filePath ++ ": " ++ readErr
        { msgs := [.error errorMsg],
          hist := hist ++ [⟨"model",
            "Error: Failed to read file " ++ filePath ++ ". Details: " ++ errorMsg⟩],
          reads := [fileUri] }

/-- The `vscode.FileType` values distinguished by `handleListCommand`. -/
inductive FileType where
  | file
  | directory
  | symbolicLink
  | unknown
deriving DecidableEq, Repr

/-- The partition loop of `FileService.handleListCommand` (fileService.ts,
lines 590-598): walk the `readDirectory` entries in order, pushing file
names onto the file list and directory names (with a trailing slash) onto
the directory list; other entry kinds are ignored. -/
def listPartitionAux : List (String × FileType) → List String → List String →
    List String × List String
  | [], dirs, files => (dirs, files)
  | (name, t) :: rest, dirs, files =>
    match t with
    | .file => listPartitionAux rest dirs (files ++ [name])
    | .directory => listPartitionAux rest (dirs ++ [name ++ "/"]) files
    | _ => listPartitionAux rest dirs files

/-- Directories-and-files partition of a directory listing, as built by
`handleListCommand` (directories first in the rendered output, each side in
the order `readDirectory` returned the entries). -/
def listPartition (entries : List (String × FileType)) :
    List String × List String :=
  listPartitionAux entries [] []

/-- The response text assembled by `handleListCommand` from the partition
(fileService.ts, lines 599-608). -/
def listResponseText (dirPath : String) (entries : List (String × FileType)) :
    String :=
  let p := listPartition entries
  let directories := p.1
  let files := p.2
  "Contents of " ++ dirPath ++ ":\n" ++
  (if directories.length ≠ 0 then
    "Directories:\n" ++ String.intercalate "\n" (directories.map ("- " ++ ·)) ++ "\n"
  else "") ++
  (if files.length ≠ 0 then
    "Files:\n" ++ String.intercalate "\n" (files.map ("- " ++ ·)) ++ "\n"
  else "") ++
  (if files.length = 0 && directories.length = 0 then "(empty directory)" else "")

/-- Result of `FileService.handleListCommand`. -/
structure ListOutcome where
  msgs : List Msg
  hist : List Turn
deriving DecidableEq, Repr

/-- `FileService.handleListCommand` (fileService.ts, lines 583-616).
`args` is the text after the `/list` prefix; an empty trimmed argument
defaults to `'.'` (the workspace root).  `readDirectory` models
`vscode.workspace.fs.readDirectory`. -/
def handleListCommand (root : Option String) (args : String) (hist : List Turn)
    (readDirectory : String → Except String (List (String × FileType))) :
    ListOutcome :=
  let dirPath := if jsTrim args = "" then "." else jsTrim args
  match secureResolvePath root dirPath with
  | .error e => { msgs := [.error e], hist := hist }
  | .ok dirUri =>
    match readDirectory dirUri with
    | .ok entries =>
      { msgs := [.response (listResponseText dirPath entries)],
        hist := hist ++ [⟨"model", "Listed contents of directory: " ++ dirPath⟩] }
    | .error listErr =>
      let errorMsg :=
        "Failed to list directory " ++ dirPath ++ ": " ++ listErr
      { msgs := [.error errorMsg],
        hist := hist ++ [⟨"model",
          "Error: Failed to list directory " ++ dirPath ++ ". Details: " ++
          errorMsg⟩] }

/-- Result of `FileService.handleCreateCommand`: webview messages, the
conversation history after the call, and whether
`geminiService.askGeminiWithHistory` was invoked. -/
structure CreateOutcome where
  msgs : List Msg
  hist : List Turn
  geminiCalled : Bool
deriving DecidableEq, Repr

/-- The task prompt `handleCreateCommand` pushes as a synthetic user turn
before calling Gemini (fileService.ts, line 644). -/
def createPrompt (filePath contentDescription : String) : String :=
  "Create the content for a new file named " ++ sq ++ filePath ++ sq ++
  ". The file should contain: " ++ contentDescription ++
  ". Only output the raw file content, without any explanations or markdown formatting."

/-- `FileService.handleCreateCommand` (fileService.ts, lines 618-665).
`args` is `messageText.substring(8)`; `statExists` models whether
`vscode.workspace.fs.stat` resolves for a path (the handler treats any
rejection as file-does-not-exist); `gemini` models
`askGeminiWithHistory` (`Except.error` is a rejected promise).  On the
success path the synthetic user prompt is pushed and then popped again; on
the failure path the `pop` is skipped because the exception jumps to the
catch block. -/
def handleCreateCommand (root : Option String) (args : String)
    (hist : List Turn) (statExists : String → Bool)
    (gemini : List Turn → Except String String) : CreateOutcome :=
  match matchPathRest args with
  | none =>
    { msgs := [.error
        "Usage: /create <filePath> [description of content for Gemini to generate]"],
      hist := hist ++ [⟨"model", "Error: Invalid /create command."⟩],
      geminiCalled := false }
  | some (filePath, rest) =>
    let contentDescription := if rest = "" then "an empty file" else rest
    match secureResolvePath root filePath with
    | .error e => { msgs := [.error e], hist := hist, geminiCalled := false }
    | .ok fileUri =>
      if statExists fileUri then
        { msgs := [.error ("File already exists: " ++ filePath ++
            ". Use /write to modify.")],
          hist := hist ++ [⟨"model",
            "Error: Attempted to create existing file " ++ filePath ++ "."⟩],
          geminiCalled := false }
      else
        let okayMsg : Msg := .response ("Okay, I will try to create " ++ sq ++
          filePath ++ sq ++ " with content described as: " ++ sq ++
          contentDescription ++ sq ++ ". I" ++ sq ++
          "ll ask Gemini to generate the content and then show you a preview.")
        let histWithPrompt :=
          hist ++ [⟨"user", createPrompt filePath contentDescription⟩]
        match gemini histWithPrompt with
        | .ok proposedContent =>
          { msgs := [okayMsg, .showFilePreview "create" filePath proposedContent
              ("Gemini proposes creating " ++ sq ++ filePath ++ sq ++
               " with the following content. Review and confirm.") none],
            hist := hist ++ [⟨"model",
              "Proposed content for " ++ filePath ++ ":\n" ++ proposedContent⟩],
            geminiCalled := true }
        | .error geminiErr =>
          let errorMsg := "Error asking Gemini to generate content for " ++
            filePath ++ ": " ++ geminiErr
          { msgs := [okayMsg, .error errorMsg],
            hist := histWithPrompt ++ [⟨"model", "Error: " ++ errorMsg⟩],
            geminiCalled := true }

/-- Result of `FileService.performConfirmedWrite`: the `(fsPath, content)`
pairs passed to the underlying `writeFile`, and the webview messages. -/
structure ConfirmWriteOutcome where
  writes : List (String × String)
  msgs : List Msg
deriving DecidableEq, Repr

/-- `FileService.performConfirmedWrite` (fileService.ts, lines 808-819),
reached from the `confirmWrite` webview message (extension.ts).  The method
is stateless: it resolves the path and invokes `writeFile` on every call;
`writeGateway` models `vscode.workspace.fs.writeFile`. -/
def performConfirmedWrite (root : Option String) (filePath newContent : String)
    (writeGateway : String → String → Except String Unit) : ConfirmWriteOutcome :=
  match secureResolvePath root filePath with
  | .error e => { writes := [], msgs := [.error e] }
  | .ok fileUri =>
    match writeGateway fileUri newContent with
    | .ok _ =>
      { writes := [(fileUri, newContent)],
        msgs := [.response ("Changes applied to: " ++ filePath)] }
    | .error err =>
      { writes := [(fileUri, newContent)],
        msgs := [.error ("Failed to apply changes to " ++ filePath ++ ": " ++ err)] }

/-- Result of `FileService.performConfirmedDelete`: the `fsPath`s passed to
the underlying `delete`, and the webview messages.  The method performs no
`stat` at all, which the record reflects by having no stat component. -/
structure ConfirmDeleteOutcome where
  deletes : List String
  msgs : List Msg
deriving DecidableEq, Repr

/-- `FileService.performConfirmedDelete` (fileService.ts, lines 821-832),
reached from the `confirmDelete` webview message (extension.ts): resolve
the path and invoke `vscode.workspace.fs.delete` directly; a rejection of
the delete (for example `FileNotFound` when the target was removed
out-of-band) is caught and reported as a generic failure message. -/
def performConfirmedDelete (root : Option String) (filePath : String)
    (deleteGateway : String → Except String Unit) : ConfirmDeleteOutcome :=
  match secureResolvePath root filePath with
  | .error e => { deletes := [], msgs := [.error e] }
  | .ok fileUri =>
    match deleteGateway fileUri with
    | .ok _ =>
      { deletes := [fileUri],
        msgs := [.response ("Successfully deleted: " ++ filePath)] }
    | .error err =>
      { deletes := [fileUri],
        msgs := [.error ("Failed to delete " ++ filePath ++ ": " ++ err)] }

end FileService

namespace FileOperationCommands

/-- A pinned context document as produced by `getContextualContent()` in
`FileOperationCommands` (fileOperationCommands.ts): sandbox-relative path
and file content. -/
structure ContextDoc where
  path : String
  content : String
deriving DecidableEq, Repr

/-- A message posted to the webview by `FileOperationCommands`.  The
`system` constructor is modelled from the spec: the `showSystemMessage`
callback injected into the class is not among the source files, and per
the outbound-event contract of the spec it surfaces a `SystemNotice{text}`
event to the user; any history side effect of the callback is not
modelled, so the `hist` components below track only the explicit
`currentHistory.push` calls in fileOperationCommands.ts. -/
inductive OpMsg where
  | system (text : String)
  | historyUpdate
  | previewCreate (filePath proposedContent description : String)
  | previewWrite (filePath originalContent proposedContent description : String)
  | operationSuccess (text : String)
  | operationError (text : String)
  | confirmDelete (filePath : String)
deriving DecidableEq, Repr

/-- Outcome of a `FileOperationCommands` handler: the posted messages, the
conversation history after the explicit pushes, and whether
`geminiService.askGeminiWithHistory` was invoked. -/
structure OpOutcome where
  events : List OpMsg
  hist : List Turn
  geminiCalled : Bool
deriving DecidableEq, Repr

/-- JavaScript `arr.splice(-1, 0, ...ins)` as a pure function: insert `ins`
immediately before the last element (at position 0 when the array is
empty). -/
def spliceBeforeLast {α : Type} (l ins : List α) : List α :=
  l.take (l.length - 1) ++ ins ++ l.drop (l.length - 1)

/-- The synthetic context preamble built by both propose handlers
(fileOperationCommands.ts): for each document, a user turn carrying the
document body and a model turn acknowledging it. -/
def contextPairs (docs : List ContextDoc) : List Turn :=
  docs.flatMap (fun item =>
    [⟨"user", "CONTEXT FILE: " ++ item.path ++ "\n```\n" ++ item.content ++ "\n```"⟩,
     ⟨"model", "Acknowledged context for " ++ item.path ++ "."⟩])

/-- The live instruction turn of a `/write` propose
(fileOperationCommands.ts, line 271). -/
def writeInstruction (rel orig desc : String) : String :=
  "The current content of the file \"" ++ rel ++ "\" is:\n```\n" ++ orig ++
  "\n```\n\nPlease modify this content based on the following instruction: " ++
  desc ++ ". Provide the complete new content of the file. Output only the raw file content."

/-- The live instruction turn of a `/create` propose
(fileOperationCommands.ts, line 156). -/
def opCreatePrompt (rel desc : String) : String :=
  "Generate content for a new file named \"" ++ rel ++
  "\" based on the following description: " ++ desc ++
  ". Provide only the raw file content."

/-- Call-history construction of `handleWriteCommand`
(fileOperationCommands.ts, lines 269-284): persisted history minus the
just-appended user turn, the live modification instruction appended, and,
when context documents are pinned, the context preamble spliced in
immediately before the live turn — excluding the document whose path
equals the write target (its content already appears in the instruction). -/
def buildWriteHistoryForGemini (currentHistory : List Turn)
    (rel orig desc : String) (docs : List ContextDoc) : List Turn :=
  let base := currentHistory.dropLast ++ [⟨"user", writeInstruction rel orig desc⟩]
  if 0 < docs.length then
    spliceBeforeLast base (contextPairs (docs.filter (fun item => item.path != rel)))
  else base

/-- Call-history construction of `handleCreateCommand`
(fileOperationCommands.ts, lines 154-167): same shape as for `/write`, but
every pinned document is injected (no target-path filter). -/
def buildCreateHistoryForGemini (currentHistory : List Turn)
    (rel desc : String) (docs : List ContextDoc) : List Turn :=
  let base := currentHistory.dropLast ++ [⟨"user", opCreatePrompt rel desc⟩]
  if 0 < docs.length then spliceBeforeLast base (contextPairs docs)
  else base

/-- Outcome of the `vscode.workspace.fs.stat` probe in `handleCreateCommand`:
the entry exists, the stat rejected with `FileNotFound`, or it rejected
with some other error message. -/
inductive StatOutcome where
  | found
  | notFound
  | failed (msg : String)
deriving DecidableEq, Repr

/-- `FileOperationCommands.handleCreateCommand` (fileOperationCommands.ts,
lines 110-191).  `messageText` is the full chat message; `apiKey` and
`modelToUse` are the credential strings (`""` models a missing value,
matching JavaScript falsiness); `statResult` models the existence probe and
`gemini` the `askGeminiWithHistory` promise. -/
def handleCreateCommand (root : Option String) (messageText apiKey modelToUse : String)
    (currentHistory : List Turn) (docs : List ContextDoc)
    (statResult : String → StatOutcome)
    (gemini : List Turn → Except String String) : OpOutcome :=
  match matchPathRest (jsTrim (strDrop 8 messageText)) with
  | none =>
    { events := [.system "Usage: /create <filePath> [description of content]",
        .historyUpdate],
      hist := currentHistory, geminiCalled := false }
  | some (filePath, rest) =>
    let description := if rest = "" then "Create an empty file." else rest
    match resolvePathUtil root filePath with
    | .error e =>
      { events := [.system e, .historyUpdate],
        hist := currentHistory, geminiCalled := false }
    | .ok (uri, rel) =>
      match statResult uri with
      | .found =>
        { events := [.system ("File already exists: " ++ rel ++
            ". Use /write to modify it."), .historyUpdate],
          hist := currentHistory, geminiCalled := false }
      | .failed m =>
        { events := [.system ("Error checking file " ++ rel ++ ": " ++ m),
            .historyUpdate],
          hist := currentHistory, geminiCalled := false }
      | .notFound =>
        if apiKey = "" ∨ modelToUse = "" then
          { events := [.system "API key or model not set. Cannot generate content.",
              .previewCreate rel "" "API key/model not set. Create empty file?"],
            hist := currentHistory, geminiCalled := false }
        else
          let generating : OpMsg :=
            .system ("Gemini is generating content for " ++ rel ++ "...")
          let historyForGemini :=
            buildCreateHistoryForGemini currentHistory rel description docs
          match gemini historyForGemini with
          | .ok generatedContent =>
            { events := [generating,
                .previewCreate rel generatedContent
                  ("Preview of content for " ++ rel ++ ":")],
              hist := currentHistory ++ [⟨"model",
                "Okay, I" ++ sq ++ "ve generated content for " ++ rel ++
                ". Please review and confirm."⟩],
              geminiCalled := true }
          | .error m =>
            let errorMessage := "Error generating content with Gemini: " ++
              (if m = "" then "Unknown error" else m)
            { events := [generating, .system errorMessage,
                .previewCreate rel ""
                  ("Error generating content. Create empty file for " ++ rel ++ "?")],
              hist := currentHistory, geminiCalled := true }

/-- Combined outcome of the `stat` probe and `readFileContentUtil` read in
`handleWriteCommand`: a regular file with its reported size and content, a
non-file entry, a missing entry, or some other stat/read failure. -/
inductive WriteStat where
  | fileEntry (size : Nat) (content : String)
  | notAFile
  | notFound
  | failed (msg : String)
deriving DecidableEq, Repr

/-- The `MAX_FILE_SIZE_FOR_WRITE_PREVIEW` constant of
fileOperationCommands.ts (1 MiB). -/
def maxWritePreviewSize : Nat := 1 * 1024 * 1024

/-- The file-too-large message of `handleWriteCommand`; the source
interpolates the sizes through JavaScript floating-point `toFixed(2)`
rendering, which is summarized here (no claim concerns this text). -/
def writeTooLargeMsg : String :=
  "File is too large to modify with AI assistance."

/-- `FileOperationCommands.handleWriteCommand` (fileOperationCommands.ts,
lines 212-303).  Parameters as in `handleCreateCommand`; `fileInfo` models
the stat probe together with the subsequent content read. -/
def handleWriteCommand (root : Option String) (messageText apiKey modelToUse : String)
    (currentHistory : List Turn) (docs : List ContextDoc)
    (fileInfo : String → WriteStat)
    (gemini : List Turn → Except String String) : OpOutcome :=
  match matchPathRest (jsTrim (strDrop 7 messageText)) with
  | none =>
    { events := [.system "Usage: /write <filePath> <description of changes>",
        .historyUpdate],
      hist := currentHistory, geminiCalled := false }
  | some (filePath, description) =>
    if description = "" then
      { events := [.system
          "Please provide a description of the changes for the /write command.",
          .historyUpdate],
        hist := currentHistory, geminiCalled := false }
    else
      match resolvePathUtil root filePath with
      | .error e =>
        { events := [.system e, .historyUpdate],
          hist := currentHistory, geminiCalled := false }
      | .ok (uri, rel) =>
        match fileInfo uri with
        | .notAFile =>
          { events := [.system ("Path is not a file: " ++ rel), .historyUpdate],
            hist := currentHistory, geminiCalled := false }
        | .notFound =>
          { events := [.system ("File not found: " ++ rel ++
              ". Use /create to make a new file."), .historyUpdate],
            hist := currentHistory, geminiCalled := false }
        | .failed m =>
          { events := [.system ("Error reading file " ++ rel ++ ": " ++ m),
              .historyUpdate],
            hist := currentHistory, geminiCalled := false }
        | .fileEntry size originalContent =>
          if maxWritePreviewSize < size then
            { events := [.system writeTooLargeMsg, .historyUpdate],
              hist := currentHistory, geminiCalled := false }
          else if apiKey = "" ∨ modelToUse = "" then
            { events := [.system
                "API key or model not set. Cannot generate content modifications.",
                .historyUpdate],
              hist := currentHistory, geminiCalled := false }
          else
            let analyzing : OpMsg := .system ("Gemini is analyzing " ++ rel ++
              " and preparing modifications...")
            let historyForGemini :=
              buildWriteHistoryForGemini currentHistory rel originalContent
                description docs
            match gemini historyForGemini with
            | .ok proposedNewContent =>
              { events := [analyzing,
                  .previewWrite rel originalContent proposedNewContent
                    ("Review proposed changes for " ++ rel ++ ":")],
                hist := currentHistory ++ [⟨"model",
                  "Okay, I" ++ sq ++ "ve prepared modifications for " ++ rel ++
                  ". Please review and confirm."⟩],
                geminiCalled := true }
            | .error m =>
              { events := [analyzing,
                  .system ("Error generating modifications with Gemini: " ++
                    (if m = "" then "Unknown error" else m)),
                  .historyUpdate],
                hist := currentHistory, geminiCalled := true }

end FileOperationCommands

/-! Theorems settling the claims. -/

/-- Claim C1: the spec requires that a raw path whose normalized join lies
outside the sandbox root is rejected with an outside-sandbox error, never
resolved, and triggers no filesystem operation — and the repository's own
test suite asserts exactly that for `../outside.txt`.  The code violates
this: `secureResolvePath` silently strips the leading `..` segments and
returns an in-sandbox path, so `/read ../secret.txt` reads `/ws/secret.txt`
instead of failing; the sibling `resolvePathUtil` lets `../wsx/f` resolve
to `/wsx/f`, outside root `/ws`, through its bare string-prefix check. -/
theorem C1_climbing_path_resolved_and_read :
    secureResolvePath (some "/ws") "../secret.txt" = .ok "/ws/secret.txt" ∧
    (FileService.handleReadCommand (some "/ws") " ../secret.txt"
      [⟨"user", "/read ../secret.txt"⟩] (fun _ => .ok "top secret")).reads =
      ["/ws/secret.txt"] ∧
    resolvePathUtil (some "/ws") "../wsx/f" = .ok ("/wsx/f", "x/f") :=
  ⟨rfl, rfl, rfl⟩

set_option maxRecDepth 40000 in
/-- Claim C5: the spec's invariant says the synthetic priming turns built
for a single model call are never persisted into the conversation history,
and the code comments its `pop` with exactly that intent.  On the success
path the synthetic `/create` prompt is indeed pushed and popped again, but
when the model call fails the exception jumps over the `pop`, so the
synthetic user turn stays in the persisted history. -/
theorem C5_synthetic_prompt_persisted_on_failure :
    Turn.mk "user" (FileService.createPrompt "notes.txt" "some notes") ∈
      (FileService.handleCreateCommand (some "/ws") "notes.txt some notes" []
        (fun _ => false) (fun _ => .error "Gemini API Error")).hist ∧
    Turn.mk "user" (FileService.createPrompt "notes.txt" "some notes") ∉
      (FileService.handleCreateCommand (some "/ws") "notes.txt some notes" []
        (fun _ => false) (fun _ => .ok "generated")).hist := by
  constructor
  · decide
  · decide


/-- Claim C6: the spec (and the repository's own `/list` test, which expects
the workspace root to be listed when no path is given) requires paths that
normalize to the root to resolve successfully with display-relative `"."`.
`secureResolvePath` instead rejects `"."` as invalid or ambiguous, so the
default `/list` errors out; the sibling `resolvePathUtil` implements the
specified behaviour. -/
theorem C6_root_path_rejected_by_secureResolvePath :
    secureResolvePath (some "/ws") "." =
      .error "Invalid or ambiguous path specified: ." ∧
    (FileService.handleListCommand (some "/ws") "" []
      (fun _ => .ok [("src", .directory), ("rootfile.md", .file)])).msgs =
      [.error "Invalid or ambiguous path specified: ."] ∧
    resolvePathUtil (some "/ws") "." = .ok ("/ws", ".") :=
  ⟨rfl, rfl, rfl⟩

/-- Claim C7: a `/create` whose target already exists fails with the
already-exists error pointing the user at `/write`, records that error in
the history, and never calls the Gemini service. -/
theorem C7_create_existing_file_skips_model_call
    (root : Option String) (args : String) (hist : List Turn)
    (statExists : String → Bool) (gemini : List Turn → Except String String)
    (fp rest t : String)
    (hparse : matchPathRest args = some (fp, rest))
    (hres : secureResolvePath root fp = .ok t)
    (hstat : statExists t = true) :
    (FileService.handleCreateCommand root args hist statExists gemini).geminiCalled
        = false ∧
    (FileService.handleCreateCommand root args hist statExists gemini).msgs =
      [.error ("File already exists: " ++ fp ++ ". Use /write to modify.")] ∧
    (FileService.handleCreateCommand root args hist statExists gemini).hist =
      hist ++ [⟨"model", "Error: Attempted to create existing file " ++ fp ++ "."⟩] := by
  simp [FileService.handleCreateCommand, hparse, hres, hstat]

/-- Witness for C7: the spec's own scenario — root `/ws`, `a.txt` exists,
input `/create a.txt hello`. -/
theorem C7_witness :
    (FileService.handleCreateCommand (some "/ws") "a.txt hello" []
      (fun _ => true) (fun _ => .ok "unused")).geminiCalled = false ∧
    (FileService.handleCreateCommand (some "/ws") "a.txt hello" []
      (fun _ => true) (fun _ => .ok "unused")).msgs =
      [.error ("File already exists: " ++ "a.txt" ++ ". Use /write to modify.")] ∧
    (FileService.handleCreateCommand (some "/ws") "a.txt hello" []
      (fun _ => true) (fun _ => .ok "unused")).hist =
      [] ++ [⟨"model", "Error: Attempted to create existing file " ++ "a.txt" ++ "."⟩] :=
  C7_create_existing_file_skips_model_call (some "/ws") "a.txt hello" []
    (fun _ => true) (fun _ => .ok "unused") "a.txt" "hello" "/ws/a.txt" rfl rfl rfl

/-- Claim C2 counterexample: `performConfirmedWrite` is stateless — there is
no operation id, pending-operation table, or consumed flag — so dispatching
the same `confirmWrite` message twice in sequence invokes the underlying
write gateway twice, and the second call reports the same success message
instead of a stale-operation error. -/
theorem C2_counterexample :
    (FileService.performConfirmedWrite (some "/ws") "a.txt" "hi"
        (fun _ _ => .ok ())).writes ++
      (FileService.performConfirmedWrite (some "/ws") "a.txt" "hi"
        (fun _ _ => .ok ())).writes =
      [("/ws/a.txt", "hi"), ("/ws/a.txt", "hi")] ∧
    (FileService.performConfirmedWrite (some "/ws") "a.txt" "hi"
        (fun _ _ => .ok ())).msgs =
      [.response "Changes applied to: a.txt"] :=
  ⟨rfl, rfl⟩

/-- Claim C2, amended: every confirm of a write — including a duplicate
confirm for the same path and content — resolves the path and performs
exactly one more gateway write with the proposed content, reporting success
again; no staleness tracking exists, so the underlying write happens once
per confirm rather than once per proposal. -/
theorem C2_duplicate_confirm_writes_again
    (root : Option String) (filePath newContent : String)
    (writeGateway : String → String → Except String Unit) (t : String)
    (hres : secureResolvePath root filePath = .ok t)
    (hgw : writeGateway t newContent = .ok ()) :
    FileService.performConfirmedWrite root filePath newContent writeGateway =
      ⟨[(t, newContent)], [.response ("Changes applied to: " ++ filePath)]⟩ := by
  simp [FileService.performConfirmedWrite, hres, hgw]

/-- Witness for the amended C2 theorem at the concrete duplicate-confirm
scenario of the counterexample. -/
theorem C2_witness :
    FileService.performConfirmedWrite (some "/ws") "cfg.json" "new"
        (fun _ _ => .ok ()) =
      ⟨[("/ws/cfg.json", "new")],
       [.response ("Changes applied to: " ++ "cfg.json")]⟩ :=
  C2_duplicate_confirm_writes_again (some "/ws") "cfg.json" "new"
    (fun _ _ => .ok ()) "/ws/cfg.json" rfl rfl

/-- Claim C3 counterexample: confirming a delete whose target was removed
out-of-band does not fail closed before the delete — `performConfirmedDelete`
never re-stats the target and invokes the underlying delete unconditionally
after path resolution; the missing target surfaces only as the gateway's
own rejection, reported as a generic failure message rather than a
target-changed-since-proposal error. -/
theorem C3_counterexample :
    (FileService.performConfirmedDelete (some "/ws") "a.txt"
        (fun _ => .error "EntryNotFound (FileSystemError)")).deletes =
      ["/ws/a.txt"] ∧
    (FileService.performConfirmedDelete (some "/ws") "a.txt"
        (fun _ => .error "EntryNotFound (FileSystemError)")).msgs =
      [.error "Failed to delete a.txt: EntryNotFound (FileSystemError)"] :=
  ⟨rfl, rfl⟩

/-- Claim C3, amended: a confirmed delete performs no re-stat; whenever path
resolution succeeds it invokes the underlying delete exactly once, and if
the target no longer exists the delete's own rejection is reported as a
generic deletion failure (fail-with-error, but only after attempting the
delete). -/
theorem C3_confirmed_delete_always_invokes_gateway
    (root : Option String) (filePath : String)
    (deleteGateway : String → Except String Unit) (t : String)
    (hres : secureResolvePath root filePath = .ok t) :
    (FileService.performConfirmedDelete root filePath deleteGateway).deletes = [t] ∧
    ∀ e, deleteGateway t = .error e →
      (FileService.performConfirmedDelete root filePath deleteGateway).msgs =
        [.error ("Failed to delete " ++ filePath ++ ": " ++ e)] := by
  constructor
  · cases hgw : deleteGateway t <;>
      simp [FileService.performConfirmedDelete, hres, hgw]
  · intro e hgw
    simp [FileService.performConfirmedDelete, hres, hgw]

/-- Witness for the amended C3 theorem at the out-of-band-removal scenario. -/
theorem C3_witness :
    (FileService.performConfirmedDelete (some "/ws") "b.txt"
        (fun _ => .error "gone")).deletes = ["/ws/b.txt"] ∧
    (FileService.performConfirmedDelete (some "/ws") "b.txt"
        (fun _ => .error "gone")).msgs =
      [.error ("Failed to delete " ++ "b.txt" ++ ": " ++ "gone")] :=
  ⟨(C3_confirmed_delete_always_invokes_gateway (some "/ws") "b.txt"
      (fun _ => .error "gone") "/ws/b.txt" rfl).1,
   (C3_confirmed_delete_always_invokes_gateway (some "/ws") "b.txt"
      (fun _ => .error "gone") "/ws/b.txt" rfl).2 "gone" rfl⟩

/-- Claim C8 counterexample: `handleListCommand` partitions a listing into
directories and files but performs no sort — each side keeps the order in
which `readDirectory` returned the entries.  Here the file side comes out
as `z.txt` before `a.txt` even though `a.txt` sorts first. -/
theorem C8_counterexample :
    FileService.listPartition
        [("sub", .directory), ("z.txt", .file), ("a.txt", .file)] =
      (["sub/"], ["z.txt", "a.txt"]) ∧
    "a.txt" < "z.txt" := by
  refine ⟨rfl, String.lt_iff_toList_lt.mpr ?_⟩
  exact List.Lex.rel (show ('a' : Char) < 'z' by decide)

/-- Claim C8, amended: a successful `/list` is partitioned into directories
first (each rendered with a trailing slash) and then files, each side in
the stable order of the underlying directory enumeration — not
alphabetically sorted. -/
theorem C8_list_partition_preserves_enumeration_order
    (entries : List (String × FileService.FileType)) :
    FileService.listPartition entries =
      ((entries.filter (fun e => e.2 == FileService.FileType.directory)).map
        (fun e => e.1 ++ "/"),
       (entries.filter (fun e => e.2 == FileService.FileType.file)).map
        Prod.fst) := by
  have aux : ∀ (es : List (String × FileService.FileType))
      (dirs files : List String),
      FileService.listPartitionAux es dirs files =
        (dirs ++ (es.filter (fun e => e.2 == FileService.FileType.directory)).map
          (fun e => e.1 ++ "/"),
         files ++ (es.filter (fun e => e.2 == FileService.FileType.file)).map
          Prod.fst) := by
    intro es
    induction es with
    | nil => intro dirs files; simp [FileService.listPartitionAux]
    | cons e rest ih =>
      intro dirs files
      obtain ⟨name, t⟩ := e
      cases t <;> simp +decide [FileService.listPartitionAux, ih, List.filter_cons]
  simpa using aux entries [] []

/-- Claim C9 counterexample: `/read ..` surfaces the resolution error to the
user, yet the persisted conversation history receives no system-notice turn
— `secureResolvePath` posts its error directly to the webview and the
handler returns with the history untouched (the repository's own test
asserts the history holds only the user message in this case). -/
theorem C9_counterexample :
    (FileService.handleReadCommand (some "/ws") " .."
        [⟨"user", "/read .."⟩] (fun _ => .ok "")).msgs =
      [.error "Invalid or ambiguous path specified: .."] ∧
    (FileService.handleReadCommand (some "/ws") " .."
        [⟨"user", "/read .."⟩] (fun _ => .ok "")).hist =
      [⟨"user", "/read .."⟩] :=
  ⟨rfl, rfl⟩

/-- Claim C9, amended: for `/read`, errors raised inside the handler itself
(missing path argument, failed read) do append a describing turn to the
persisted history before the request completes, but errors emitted during
path resolution (`secureResolvePath`) are posted to the UI only and leave
the history unchanged. -/
theorem C9_handler_errors_recorded_resolution_errors_not
    (root : Option String) (args : String) (hist : List Turn)
    (readFile : String → Except String String) :
    (jsTrim args = "" →
      (FileService.handleReadCommand root args hist readFile).msgs =
        [.error
          "Please specify a file path after /read (e.g., /read src/extension.ts)."] ∧
      (FileService.handleReadCommand root args hist readFile).hist =
        hist ++ [⟨"model", "Error: User did not specify a file path for /read."⟩]) ∧
    (∀ e, jsTrim args ≠ "" → secureResolvePath root (jsTrim args) = .error e →
      (FileService.handleReadCommand root args hist readFile).msgs = [.error e] ∧
      (FileService.handleReadCommand root args hist readFile).hist = hist) ∧
    (∀ t m, jsTrim args ≠ "" → secureResolvePath root (jsTrim args) = .ok t →
      readFile t = .error m →
      (FileService.handleReadCommand root args hist readFile).hist =
        hist ++ [⟨"model",
          "Error: Failed to read file " ++ jsTrim args ++ ". Details: " ++
          ("Failed to read file " ++ jsTrim args ++ ": " ++ m)⟩]) := by
  refine ⟨fun h0 => ?_, fun e hne hres => ?_, fun t m hne hres hread => ?_⟩
  · simp [FileService.handleReadCommand, h0]
  · simp [FileService.handleReadCommand, hne, hres]
  · simp [FileService.handleReadCommand, hne, hres, hread]

/-- Witness for the amended C9 theorem: the resolution-error conjunct at the
concrete `/read ..` request. -/
theorem C9_witness :
    (FileService.handleReadCommand (some "/ws") ".." [] (fun _ => .ok "")).msgs =
      [.error "Invalid or ambiguous path specified: .."] ∧
    (FileService.handleReadCommand (some "/ws") ".." [] (fun _ => .ok "")).hist =
      ([] : List Turn) :=
  (C9_handler_errors_recorded_resolution_errors_not (some "/ws") ".." []
    (fun _ => .ok "")).2.1 "Invalid or ambiguous path specified: .."
    (by decide) rfl

/-- Claim C10: when a `/write` propose builds the model call history with
pinned context documents, the document whose path equals the write target
is excluded from the injected preamble, and every other document
contributes a user turn plus an assistant acknowledgment, with the whole
preamble sitting immediately before the live modification-instruction
turn. -/
theorem C10_write_preamble_excludes_target_doc
    (currentHistory : List Turn) (rel orig desc : String)
    (docs : List FileOperationCommands.ContextDoc)
    (hdocs : docs ≠ []) :
    FileOperationCommands.buildWriteHistoryForGemini currentHistory rel orig
        desc docs =
      currentHistory.dropLast ++
      FileOperationCommands.contextPairs
        (docs.filter (fun item => item.path != rel)) ++
      [⟨"user", FileOperationCommands.writeInstruction rel orig desc⟩] := by
  have hl : 0 < docs.length := List.length_pos.mpr hdocs
  simp only [FileOperationCommands.buildWriteHistoryForGemini, if_pos hl]
  have hsnoc : ∀ (A : List Turn) (x : Turn) (ins : List Turn),
      FileOperationCommands.spliceBeforeLast (A ++ [x]) ins = A ++ ins ++ [x] := by
    intro A x ins
    unfold FileOperationCommands.spliceBeforeLast
    have hlen : (A ++ [x]).length - 1 = A.length := by simp
    rw [hlen, List.take_left, List.drop_left]
  exact hsnoc _ _ _

/-- Witness for C10: one pinned document equal to the target (excluded) and
one other document (injected), spliced before the live instruction. -/
theorem C10_witness :
    FileOperationCommands.buildWriteHistoryForGemini
        [⟨"user", "/write cfg.json set debug"⟩] "cfg.json" "orig" "set debug"
        [⟨"cfg.json", "x"⟩, ⟨"notes.md", "n"⟩] =
      List.dropLast [⟨"user", "/write cfg.json set debug"⟩] ++
      FileOperationCommands.contextPairs
        ([⟨"cfg.json", "x"⟩, ⟨"notes.md", "n"⟩].filter
          (fun item => item.path != "cfg.json")) ++
      [⟨"user", FileOperationCommands.writeInstruction "cfg.json" "orig"
        "set debug"⟩] :=
  C10_write_preamble_excludes_target_doc
    [⟨"user", "/write cfg.json set debug"⟩] "cfg.json" "orig" "set debug"
    [⟨"cfg.json", "x"⟩, ⟨"notes.md", "n"⟩] (by decide)

/-- Claim C4 counterexample: when the Gemini call of a `/create` propose
fails, `FileOperationCommands.handleCreateCommand` emits the error message
and then, contrary to the claim, additionally posts a file-preview event
proposing empty content (the empty-file fallback the spec flags as an open
question) — so a preview is created on model failure. -/
theorem C4_counterexample :
    (FileOperationCommands.handleCreateCommand (some "/ws")
        "/create a.txt some text" "key" "gemini-pro"
        [⟨"user", "/create a.txt some text"⟩] [] (fun _ => .notFound)
        (fun _ => .error "Gemini API Error")).events =
      [.system "Gemini is generating content for /a.txt...",
       .system "Error generating content with Gemini: Gemini API Error",
       .previewCreate "/a.txt" ""
         "Error generating content. Create empty file for /a.txt?"] :=
  rfl

/-- Claim C4, amended: on a model-service failure during a propose phase the
handler emits the error message and creates no pending operation (the code
has no pending-operation table at all); for `/write` no preview is posted,
but for `/create` the handler additionally posts an empty-content
file-preview event offering to create the file empty. -/
theorem C4_model_failure_emits_error_create_posts_empty_preview
    (root : Option String) (msgCreate msgWrite apiKey modelToUse : String)
    (hist : List Turn) (docs : List FileOperationCommands.ContextDoc)
    (statResult : String → FileOperationCommands.StatOutcome)
    (fileInfo : String → FileOperationCommands.WriteStat)
    (gemini : List Turn → Except String String)
    (fpC restC uriC relC fpW descW uriW relW orig m : String) (size : Nat)
    (hm : m ≠ "")
    (hA : apiKey ≠ "") (hM : modelToUse ≠ "")
    (hparseC : matchPathRest (jsTrim (strDrop 8 msgCreate)) = some (fpC, restC))
    (hresC : resolvePathUtil root fpC = .ok (uriC, relC))
    (hstatC : statResult uriC = .notFound)
    (hgemC : gemini (FileOperationCommands.buildCreateHistoryForGemini hist relC
      (if restC = "" then "Create an empty file." else restC) docs) = .error m)
    (hparseW : matchPathRest (jsTrim (strDrop 7 msgWrite)) = some (fpW, descW))
    (hdescW : descW ≠ "")
    (hresW : resolvePathUtil root fpW = .ok (uriW, relW))
    (hinfoW : fileInfo uriW = .fileEntry size orig)
    (hsize : size ≤ FileOperationCommands.maxWritePreviewSize)
    (hgemW : gemini (FileOperationCommands.buildWriteHistoryForGemini hist relW
      orig descW docs) = .error m) :
    (FileOperationCommands.handleCreateCommand root msgCreate apiKey modelToUse
        hist docs statResult gemini).events =
      [.system ("Gemini is generating content for " ++ relC ++ "..."),
       .system ("Error generating content with Gemini: " ++ m),
       .previewCreate relC ""
         ("Error generating content. Create empty file for " ++ relC ++ "?")] ∧
    (FileOperationCommands.handleWriteCommand root msgWrite apiKey modelToUse
        hist docs fileInfo gemini).events =
      [.system ("Gemini is analyzing " ++ relW ++ " and preparing modifications..."),
       .system ("Error generating modifications with Gemini: " ++ m),
       .historyUpdate] := by
  constructor
  · simp [FileOperationCommands.handleCreateCommand, hparseC, hresC, hstatC,
      hA, hM, hm, hgemC]
  · simp [FileOperationCommands.handleWriteCommand, hparseW, hdescW, hresW,
      hinfoW, Nat.not_lt.mpr hsize, hA, hM, hm, hgemW]

/-- Witness for the amended C4 theorem: concrete failing `/create` and
`/write` proposals against root `/ws` with a rejecting Gemini service. -/
theorem C4_witness :
    (FileOperationCommands.handleCreateCommand (some "/ws")
        "/create a.txt some text" "key" "gemini-pro" [] []
        (fun _ => .notFound) (fun _ => .error "Gemini API Error")).events =
      [.system ("Gemini is generating content for " ++ "/a.txt" ++ "..."),
       .system ("Error generating content with Gemini: " ++ "Gemini API Error"),
       .previewCreate "/a.txt" ""
         ("Error generating content. Create empty file for " ++ "/a.txt" ++ "?")] ∧
    (FileOperationCommands.handleWriteCommand (some "/ws")
        "/write b.txt fix the title" "key" "gemini-pro" [] []
        (fun _ => .fileEntry 3 "old") (fun _ => .error "Gemini API Error")).events =
      [.system ("Gemini is analyzing " ++ "/b.txt" ++
         " and preparing modifications..."),
       .system ("Error generating modifications with Gemini: " ++
         "Gemini API Error"),
       .historyUpdate] :=
  C4_model_failure_emits_error_create_posts_empty_preview (some "/ws")
    "/create a.txt some text" "/write b.txt fix the title" "key" "gemini-pro"
    [] [] (fun _ => .notFound) (fun _ => .fileEntry 3 "old")
    (fun _ => .error "Gemini API Error")
    "a.txt" "some text" "/ws/a.txt" "/a.txt"
    "b.txt" "fix the title" "/ws/b.txt" "/b.txt" "old" "Gemini API Error" 3
    (by decide) (by decide) (by decide) rfl rfl rfl rfl rfl (by decide) rfl rfl
    (by decide) rfl

end GeminiFS
